import Mathlib

/-
Verification of the asynchronous training-job orchestration layer of the
my-torah-complete-admin-dashboard repository.

The JavaScript source is shallowly embedded: JS runtime values that the
controllers inspect for truthiness are modelled by `JSValue`; Mongo documents
become Lean structures; every I/O boundary (Mongo lookups, the Replicate
provider, S3 key randomness, clocks) is passed in as an explicit argument so
the controller bodies themselves are pure, executable Lean functions.

Embedded source files:
  src/backend/src/utils/replicateTraining.js   (placeholder external handles)
  src/backend/src/controllers/trainingController.js
    (startTraining, checkTrainingStatus, cancelTraining, streamTrainings,
     getAllTrainings minimal mode, getTrainingsLean projection)
-/

/-- Model of a JavaScript runtime value in the positions the embedded code
inspects dynamically (typeof checks and truthiness). -/
inductive JSValue where
  | str : String → JSValue
  | num : Int → JSValue
  | bool : Bool → JSValue
  | null : JSValue
  | undef : JSValue
deriving DecidableEq, Repr

/-- JavaScript falsiness for the values of `JSValue`: `undefined`, `null`,
the empty string, `0` and `false` are falsy. -/
def jsFalsy : JSValue → Bool
  | .str s => s.isEmpty
  | .num n => n == 0
  | .bool b => !b
  | .null => true
  | .undef => true

/-- A JS optional-string field read through truthiness (`x || y` patterns):
`none` models `undefined`/`null`, and an empty string is also falsy. -/
def strVal : Option String → Option String
  | some s => if s.isEmpty then none else some s
  | none => none

/-- JavaScript `String.prototype.startsWith`, embedded as a character-list
prefix test. -/
def jsStartsWith (s p : String) : Bool := p.data.isPrefixOf s.data

theorem jsStartsWith_append (p rest : String) :
    jsStartsWith (p ++ rest) p = true := by
  simp [jsStartsWith, List.isPrefixOf_iff_prefix, String.data_append]

/-- `createPendingReplicateId` from src/backend/src/utils/replicateTraining.js.
The JS function reads `Date.now()` and `Math.random()`; those two effects are
passed in as the `nowMs` and `token` arguments.  A non-string `modelName`
(including the `undefined` that triggers the JS default parameter) collapses
to the literal `"model"`. -/
def createPendingReplicateId (modelName : JSValue) (nowMs : Nat) (token : String) : String :=
  let safeName : String :=
    match modelName with
    | .str s => s
    | _ => "model"
  "pending:" ++ safeName ++ ":" ++ toString nowMs ++ ":" ++ token

/-- `isPendingReplicateId` from src/backend/src/utils/replicateTraining.js:
true exactly for strings starting with the literal prefix `pending:`. -/
def isPendingReplicateId (value : JSValue) : Bool :=
  match value with
  | .str s => jsStartsWith s "pending:"
  | _ => false

/-- Claim C9: for every input (any model name string, or any non-string
value), `createPendingReplicateId` produces a string beginning with
`pending:` followed by the sanitized model name, a timestamp and a random
suffix; `isPendingReplicateId` applied to that output is always true
(placeholder round-trip), and `isPendingReplicateId` is false on every
non-string value. -/
theorem C9_pending_id_roundtrip (v : JSValue) (nowMs : Nat) (token : String)
    (n : Int) (b : Bool) :
    (∃ rest, createPendingReplicateId v nowMs token = "pending:" ++ rest)
      ∧ jsStartsWith (createPendingReplicateId v nowMs token) "pending:" = true
      ∧ isPendingReplicateId (.str (createPendingReplicateId v nowMs token)) = true
      ∧ isPendingReplicateId (.num n) = false
      ∧ isPendingReplicateId (.bool b) = false
      ∧ isPendingReplicateId .null = false
      ∧ isPendingReplicateId .undef = false := by
  refine ⟨?_, ?_, ?_, rfl, rfl, rfl, rfl⟩
  · cases v with
    | str s =>
        exact ⟨s ++ ":" ++ toString nowMs ++ ":" ++ token,
          by simp only [createPendingReplicateId, String.append_assoc]⟩
    | num m =>
        exact ⟨"model" ++ ":" ++ toString nowMs ++ ":" ++ token,
          by simp only [createPendingReplicateId, String.append_assoc]⟩
    | bool c =>
        exact ⟨"model" ++ ":" ++ toString nowMs ++ ":" ++ token,
          by simp only [createPendingReplicateId, String.append_assoc]⟩
    | null =>
        exact ⟨"model" ++ ":" ++ toString nowMs ++ ":" ++ token,
          by simp only [createPendingReplicateId, String.append_assoc]⟩
    | undef =>
        exact ⟨"model" ++ ":" ++ toString nowMs ++ ":" ++ token,
          by simp only [createPendingReplicateId, String.append_assoc]⟩
  · cases v <;>
      (simp only [createPendingReplicateId, String.append_assoc];
        exact jsStartsWith_append _ _)
  · cases v <;>
      (simp only [isPendingReplicateId, createPendingReplicateId, String.append_assoc];
        exact jsStartsWith_append _ _)

/-- One entry of a Job Record event log: `{type, message, metadata, timestamp}`
as appended by trainingController.js (timestamps are modelled as epoch
milliseconds). -/
structure TrainingEvent where
  type : String
  message : String
  metadata : List (String × JSValue)
  timestamp : Nat
deriving DecidableEq, Repr

/-- One uploaded training image as stored on the Training document
(trainingController.js startTraining uploadPromises). -/
structure TrainingAsset where
  key : String
  url : String
  size : Nat
  contentType : String
  uploadedAt : Nat
  originalName : String
deriving DecidableEq, Repr

/-- The Training Mongo document (Job Record) as the controllers read and
write it.  `replicateTrainingId` (the external handle) and `error` are kept
as `JSValue` because the controllers test them for JS truthiness. -/
structure Training where
  id : Nat
  userId : Nat
  modelName : String
  status : String
  progress : Nat
  attempts : Nat
  replicateTrainingId : JSValue
  modelVersion : JSValue
  error : JSValue
  startedAt : Option Nat
  completedAt : Option Nat
  imageUrls : List String
  imageAssets : List TrainingAsset
  events : List TrainingEvent
deriving DecidableEq, Repr

/-- Result of a call to the external provider (Replicate): either a value or
a thrown error carrying a message. -/
inductive ProviderResult (α : Type) where
  | ok : α → ProviderResult α
  | err : String → ProviderResult α
deriving DecidableEq, Repr

/-- The terminal status list, as written in checkTrainingStatus line 911
(also the terminal statuses of the spec state machine). -/
def terminalStatuses : List String := ["succeeded", "failed", "canceled"]

/-- The statuses the spec calls cancelable (queued, starting, processing). -/
def activeStatuses : List String := ["queued", "starting", "processing"]

/-- The `findByIdAndUpdate` applied by cancelTraining once the provider has
acknowledged the cancel: status `canceled`, `completedAt` set, a `canceled`
event pushed. -/
def applyCancelUpdate (training : Training) (nowMs : Nat) : Training :=
  { training with
    status := "canceled"
    completedAt := some nowMs
    events := training.events ++
      [{ type := "canceled"
         message := "Training canceled by user"
         metadata := [("replicateTrainingId", training.replicateTrainingId)]
         timestamp := nowMs }] }

/-- Observable outcome of a cancelTraining request: HTTP response, the
database state of the targeted record afterwards, and the cancel requests
that were actually sent to the provider. -/
structure CancelOutcome where
  httpStatus : Nat
  success : Bool
  message : String
  record : Option Training
  providerCancelCalls : List JSValue
  broadcasts : Nat
deriving DecidableEq, Repr

/-- `cancelTraining` from trainingController.js (lines 941-996).  `lookup` is
the `Training.findById` result, `providerCancel` the behaviour of
`replicate.trainings.cancel`, `nowMs` the `new Date()` read.  A provider
error propagates to the catch block (HTTP 500) before any database write, so
the record is returned unchanged there. -/
def cancelTraining (lookup : Option Training)
    (providerCancel : JSValue → ProviderResult Unit) (nowMs : Nat) : CancelOutcome :=
  match lookup with
  | none =>
      { httpStatus := 404, success := false, message := "Training not found"
        record := none, providerCancelCalls := [], broadcasts := 0 }
  | some training =>
      if jsFalsy training.replicateTrainingId || isPendingReplicateId training.replicateTrainingId then
        { httpStatus := 400, success := false
          message := "Training has not been dispatched to Replicate yet."
          record := some training, providerCancelCalls := [], broadcasts := 0 }
      else
        match providerCancel training.replicateTrainingId with
        | .err _ =>
            { httpStatus := 500, success := false, message := "Failed to cancel training"
              record := some training
              providerCancelCalls := [training.replicateTrainingId], broadcasts := 0 }
        | .ok _ =>
            { httpStatus := 200, success := true, message := "Training canceled successfully"
              record := some (applyCancelUpdate training nowMs)
              providerCancelCalls := [training.replicateTrainingId], broadcasts := 1 }

/-- The provider-side training object returned by `replicate.trainings.get`,
reduced to the fields checkTrainingStatus reads. -/
structure ReplicateTraining where
  rid : String
  status : String
deriving DecidableEq, Repr

/-- Observable outcome of a checkTrainingStatus request: HTTP response, the
status-poll requests sent to the provider, the invocations of the Event
Ingestion entry point `processTrainingEvent` (training id, provider payload,
event type), and the response body record. -/
structure CheckOutcome where
  httpStatus : Nat
  success : Bool
  providerGetCalls : List JSValue
  ingestCalls : List (Nat × ReplicateTraining × String)
  data : Option Training
deriving DecidableEq, Repr

/-- `checkTrainingStatus` from trainingController.js (lines 892-935).
`providerGet` is `replicate.trainings.get`; `ingest` is the database effect
of the (out-of-src) `processTrainingEvent` service, passed in opaquely: the
controller only forwards the provider payload and the computed event type to
it and then returns the now-current record. -/
def checkTrainingStatus (lookup : Option Training)
    (providerGet : JSValue → ProviderResult ReplicateTraining)
    (ingest : Training → ReplicateTraining → String → Training) : CheckOutcome :=
  match lookup with
  | none =>
      { httpStatus := 404, success := false
        providerGetCalls := [], ingestCalls := [], data := none }
  | some training =>
      if jsFalsy training.replicateTrainingId || isPendingReplicateId training.replicateTrainingId then
        { httpStatus := 200, success := true
          providerGetCalls := [], ingestCalls := [], data := some training }
      else
        match providerGet training.replicateTrainingId with
        | .err _ =>
            { httpStatus := 500, success := false
              providerGetCalls := [training.replicateTrainingId]
              ingestCalls := [], data := none }
        | .ok rep =>
            let eventType := if rep.status ∈ terminalStatuses then "completed" else "update"
            { httpStatus := 200, success := true
              providerGetCalls := [training.replicateTrainingId]
              ingestCalls := [(training.id, rep, eventType)]
              data := some (ingest training rep eventType) }

/-- A Job Record that is already terminal (`succeeded`) but carries a real,
non-placeholder external handle. -/
def trainingSucceededReal : Training :=
  { id := 1, userId := 7, modelName := "demo-model", status := "succeeded"
    progress := 100, attempts := 1, replicateTrainingId := .str "rep-abc"
    modelVersion := .null, error := .null, startedAt := some 10
    completedAt := some 20, imageUrls := [], imageAssets := [], events := [] }

/-- Claim C1, counterexample: cancelTraining does NOT reject a record whose
status is terminal.  For the concrete record `trainingSucceededReal`
(status `succeeded`, real external handle) and a provider that acknowledges
the cancel, the request returns HTTP 200, the cancel is forwarded to the
provider, and the record is mutated — contradicting the claim that
cancellation is rejected with no state change whenever the status is
terminal. -/
theorem C1_cancel_terminal_not_rejected :
    trainingSucceededReal.status ∈ terminalStatuses
      ∧ (cancelTraining (some trainingSucceededReal) (fun _ => .ok ()) 100).httpStatus = 200
      ∧ (cancelTraining (some trainingSucceededReal) (fun _ => .ok ()) 100).success = true
      ∧ (cancelTraining (some trainingSucceededReal) (fun _ => .ok ()) 100).providerCancelCalls
          = [.str "rep-abc"]
      ∧ (cancelTraining (some trainingSucceededReal) (fun _ => .ok ()) 100).record
          ≠ some trainingSucceededReal := by
  decide

/-- Claim C1 (amended): cancelTraining is rejected with an error and no state
change (and no provider call) exactly when the record's external handle is
falsy (absent/empty) or still a placeholder; when the handle is real the
cancel request is forwarded to the provider regardless of the record's
status — the local terminal/active status is never consulted. -/
theorem C1_cancel_guard_is_handle_only (training : Training)
    (providerCancel : JSValue → ProviderResult Unit) (nowMs : Nat) :
    ((jsFalsy training.replicateTrainingId || isPendingReplicateId training.replicateTrainingId) = true →
        (cancelTraining (some training) providerCancel nowMs).httpStatus = 400
          ∧ (cancelTraining (some training) providerCancel nowMs).success = false
          ∧ (cancelTraining (some training) providerCancel nowMs).record = some training
          ∧ (cancelTraining (some training) providerCancel nowMs).providerCancelCalls = [])
      ∧ ((jsFalsy training.replicateTrainingId || isPendingReplicateId training.replicateTrainingId) = false →
        (cancelTraining (some training) providerCancel nowMs).providerCancelCalls
          = [training.replicateTrainingId]) := by
  constructor
  · intro h
    simp [cancelTraining, h]
  · intro h
    rcases hpc : providerCancel training.replicateTrainingId with u | m <;>
      simp [cancelTraining, h, hpc]

/-- Witness for C1_cancel_guard_is_handle_only at a concrete placeholder
record and a concrete real-handle record. -/
theorem C1_cancel_guard_witness :
    (cancelTraining (some { trainingSucceededReal with
        replicateTrainingId := .str "pending:demo-model:1:tok" })
        (fun _ => .ok ()) 100).httpStatus = 400
      ∧ (cancelTraining (some trainingSucceededReal) (fun _ => .ok ()) 100).providerCancelCalls
          = [.str "rep-abc"] := by
  refine ⟨?_, ?_⟩
  · exact (C1_cancel_guard_is_handle_only
      { trainingSucceededReal with replicateTrainingId := .str "pending:demo-model:1:tok" }
      (fun _ => .ok ()) 100).1 (by decide) |>.1
  · exact (C1_cancel_guard_is_handle_only trainingSucceededReal
      (fun _ => .ok ()) 100).2 (by decide)

/-- Claim C2, counterexample: checkTrainingStatus consults the provider even
for a record in a terminal status, as long as the external handle is real.
For the concrete terminal record `trainingSucceededReal` the poll issues a
provider status request — contradicting the claim that the provider is
consulted only if the record is non-terminal. -/
theorem C2_check_polls_terminal_record :
    trainingSucceededReal.status ∈ terminalStatuses
      ∧ (checkTrainingStatus (some trainingSucceededReal)
          (fun _ => .ok { rid := "rep-abc", status := "succeeded" })
          (fun t _ _ => t)).providerGetCalls = [.str "rep-abc"] := by
  decide

/-- Claim C2 (amended): checkTrainingStatus consults the provider exactly
when the record has a real (non-falsy, non-placeholder) external handle —
terminality of the local record is not consulted.  When it polls and the
provider responds, the provider payload is applied through the Event
Ingestion entry point processTrainingEvent with event type `completed`
exactly when the provider status is succeeded, failed or canceled (else
`update`), and the now-current (post-ingestion) record is returned; when the
handle is falsy or a placeholder the local record is returned with no
provider call and no ingestion. -/
theorem C2_check_status_behaviour (training : Training)
    (providerGet : JSValue → ProviderResult ReplicateTraining)
    (ingest : Training → ReplicateTraining → String → Training) :
    ((jsFalsy training.replicateTrainingId || isPendingReplicateId training.replicateTrainingId) = true →
        (checkTrainingStatus (some training) providerGet ingest).providerGetCalls = []
          ∧ (checkTrainingStatus (some training) providerGet ingest).ingestCalls = []
          ∧ (checkTrainingStatus (some training) providerGet ingest).data = some training
          ∧ (checkTrainingStatus (some training) providerGet ingest).httpStatus = 200)
      ∧ ((jsFalsy training.replicateTrainingId || isPendingReplicateId training.replicateTrainingId) = false →
        (checkTrainingStatus (some training) providerGet ingest).providerGetCalls
            = [training.replicateTrainingId]
          ∧ (∀ rep, providerGet training.replicateTrainingId = .ok rep →
              (checkTrainingStatus (some training) providerGet ingest).ingestCalls
                  = [(training.id, rep,
                      if rep.status ∈ terminalStatuses then "completed" else "update")]
                ∧ (checkTrainingStatus (some training) providerGet ingest).data
                    = some (ingest training rep
                        (if rep.status ∈ terminalStatuses then "completed" else "update")))) := by
  constructor
  · intro h
    simp [checkTrainingStatus, h]
  · intro h
    rcases hpg : providerGet training.replicateTrainingId with rep | m
    · refine ⟨by simp [checkTrainingStatus, h, hpg], ?_⟩
      intro rep2 hrep2
      cases hrep2
      constructor <;> simp [checkTrainingStatus, h, hpg]
    · refine ⟨by simp [checkTrainingStatus, h, hpg], ?_⟩
      intro rep2 hrep2
      cases hrep2

/-- Witness for C2_check_status_behaviour at a concrete placeholder record
and a concrete real-handle record with a succeeded provider payload. -/
theorem C2_check_status_witness :
    (checkTrainingStatus (some { trainingSucceededReal with
          replicateTrainingId := .str "pending:demo-model:1:tok" })
        (fun _ => .ok { rid := "rep-abc", status := "succeeded" })
        (fun t _ _ => t)).providerGetCalls = []
      ∧ (checkTrainingStatus (some trainingSucceededReal)
          (fun _ => .ok { rid := "rep-abc", status := "succeeded" })
          (fun t _ _ => t)).ingestCalls
            = [(1, { rid := "rep-abc", status := "succeeded" }, "completed")] := by
  refine ⟨?_, ?_⟩
  · exact ((C2_check_status_behaviour
      { trainingSucceededReal with replicateTrainingId := .str "pending:demo-model:1:tok" }
      (fun _ => .ok { rid := "rep-abc", status := "succeeded" })
      (fun t _ _ => t)).1 (by decide)).1
  · exact (((C2_check_status_behaviour trainingSucceededReal
      (fun _ => .ok { rid := "rep-abc", status := "succeeded" })
      (fun t _ _ => t)).2 (by decide)).2
      { rid := "rep-abc", status := "succeeded" } rfl).1

/-- Claim C3: while the external handle is a placeholder (or absent/falsy),
no status-polling request and no cancellation request is ever sent to the
provider: checkTrainingStatus returns the local record (HTTP 200) without
calling the provider, and cancelTraining returns an error (HTTP 400) without
calling the provider and without changing the record. -/
theorem C3_placeholder_never_contacts_provider (training : Training)
    (providerGet : JSValue → ProviderResult ReplicateTraining)
    (ingest : Training → ReplicateTraining → String → Training)
    (providerCancel : JSValue → ProviderResult Unit) (nowMs : Nat)
    (h : (jsFalsy training.replicateTrainingId
        || isPendingReplicateId training.replicateTrainingId) = true) :
    (checkTrainingStatus (some training) providerGet ingest).providerGetCalls = []
      ∧ (checkTrainingStatus (some training) providerGet ingest).ingestCalls = []
      ∧ (checkTrainingStatus (some training) providerGet ingest).httpStatus = 200
      ∧ (checkTrainingStatus (some training) providerGet ingest).data = some training
      ∧ (cancelTraining (some training) providerCancel nowMs).providerCancelCalls = []
      ∧ (cancelTraining (some training) providerCancel nowMs).httpStatus = 400
      ∧ (cancelTraining (some training) providerCancel nowMs).success = false
      ∧ (cancelTraining (some training) providerCancel nowMs).record = some training := by
  simp [checkTrainingStatus, cancelTraining, h]

/-- Witness for C3_placeholder_never_contacts_provider at a concrete record
holding a freshly synthesized placeholder handle. -/
theorem C3_placeholder_witness :
    (checkTrainingStatus (some { trainingSucceededReal with
          status := "queued"
          replicateTrainingId := .str (createPendingReplicateId (.str "demo-model") 1 "tok") })
        (fun _ => .ok { rid := "x", status := "succeeded" }) (fun t _ _ => t)).providerGetCalls = []
      ∧ (cancelTraining (some { trainingSucceededReal with
          status := "queued"
          replicateTrainingId := .str (createPendingReplicateId (.str "demo-model") 1 "tok") })
          (fun _ => .ok ()) 100).providerCancelCalls = [] := by
  have h := C3_placeholder_never_contacts_provider
    { trainingSucceededReal with
      status := "queued"
      replicateTrainingId := .str (createPendingReplicateId (.str "demo-model") 1 "tok") }
    (fun _ => .ok { rid := "x", status := "succeeded" }) (fun t _ _ => t)
    (fun _ => .ok ()) 100 (by decide)
  exact ⟨h.1, h.2.2.2.2.1⟩

/-- Claim C5: for every cancelable Job Record (real external handle, active
status), when the provider acknowledges the cancel the record transitions to
status `canceled` with `completedAt` set and a `canceled` event appended
(HTTP 200); when the provider rejects the cancel, the error is surfaced
synchronously (HTTP 500), the record is left completely unchanged, and the
cancel is not retried (exactly one provider call either way). -/
theorem C5_cancel_provider_outcome (training : Training)
    (providerCancel : JSValue → ProviderResult Unit) (nowMs : Nat)
    (hReal : (jsFalsy training.replicateTrainingId
        || isPendingReplicateId training.replicateTrainingId) = false)
    (hActive : training.status ∈ activeStatuses) :
    (providerCancel training.replicateTrainingId = .ok () →
        (cancelTraining (some training) providerCancel nowMs).httpStatus = 200
          ∧ (cancelTraining (some training) providerCancel nowMs).record.map Training.status
              = some "canceled"
          ∧ (cancelTraining (some training) providerCancel nowMs).record.map Training.completedAt
              = some (some nowMs)
          ∧ (cancelTraining (some training) providerCancel nowMs).record.map Training.events
              = some (training.events ++
                  [{ type := "canceled"
                     message := "Training canceled by user"
                     metadata := [("replicateTrainingId", training.replicateTrainingId)]
                     timestamp := nowMs }]))
      ∧ (∀ m, providerCancel training.replicateTrainingId = .err m →
          (cancelTraining (some training) providerCancel nowMs).httpStatus = 500
            ∧ (cancelTraining (some training) providerCancel nowMs).success = false
            ∧ (cancelTraining (some training) providerCancel nowMs).record = some training)
      ∧ (cancelTraining (some training) providerCancel nowMs).providerCancelCalls.length = 1 := by
  rcases hpc : providerCancel training.replicateTrainingId with u | m
  · refine ⟨fun _ => ?_, ?_, ?_⟩
    · simp [cancelTraining, hReal, hpc, applyCancelUpdate]
    · intro m2 hm2
      cases hm2
    · simp [cancelTraining, hReal, hpc]
  · refine ⟨fun hok => ?_, ?_, ?_⟩
    · cases hok
    · intro m2 hm2
      cases hm2
      simp [cancelTraining, hReal, hpc]
    · simp [cancelTraining, hReal, hpc]

/-- Witness for C5_cancel_provider_outcome at a concrete processing record,
exercising both the acknowledging and the rejecting provider. -/
theorem C5_cancel_provider_witness :
    (cancelTraining (some { trainingSucceededReal with status := "processing" })
        (fun _ => .ok ()) 100).record.map Training.status = some "canceled"
      ∧ (cancelTraining (some { trainingSucceededReal with status := "processing" })
          (fun _ => .err "boom") 100).record
            = some { trainingSucceededReal with status := "processing" } := by
  refine ⟨?_, ?_⟩
  · exact ((C5_cancel_provider_outcome
      { trainingSucceededReal with status := "processing" }
      (fun _ => .ok ()) 100 (by decide) (by decide)).1 rfl).2.1
  · exact ((C5_cancel_provider_outcome
      { trainingSucceededReal with status := "processing" }
      (fun _ => .err "boom") 100 (by decide) (by decide)).2.1 "boom" rfl).2.2

/-- A multer upload as startTraining reads it (`req.files` entries): buffer
length, original name, mimetype, size.  Optional string fields model JS
`undefined`. -/
structure UploadedFile where
  originalname : Option String
  mimetype : Option String
  bufLen : Nat
  size : Nat
deriving DecidableEq, Repr

/-- A stored user reference image (`user.imageAssets` entries) as
startTraining reads it. -/
structure UserAsset where
  aid : Nat
  key : Option String
  url : Option String
  name : Option String
  originalName : Option String
  contentType : Option String
deriving DecidableEq, Repr

/-- The User document fields startTraining reads. -/
structure User where
  uid : Nat
  name : String
  imageAssets : List UserAsset
deriving DecidableEq, Repr

/-- JS `path.extname`: the suffix from the last dot, or the empty string when
the name has no dot. -/
def extname (p : String) : String :=
  let suffix := p.data.reverse.takeWhile (· ≠ '.')
  if suffix.length = p.data.length then "" else "." ++ String.mk suffix.reverse

/-- JS `path.basename` restricted to the forms the controller feeds it: the
part after the last slash. -/
def jsBasename (p : String) : String :=
  String.mk (p.data.reverse.takeWhile (· ≠ '/')).reverse

/-- `guessContentType` from trainingController.js (lines 31-50). -/
def guessContentType (fileName : String) : String :=
  let ext := (extname fileName).toLower
  if ext = ".png" then "image/png"
  else if ext = ".webp" then "image/webp"
  else if ext = ".gif" then "image/gif"
  else if ext = ".bmp" then "image/bmp"
  else if ext = ".tiff" ∨ ext = ".tif" then "image/tiff"
  else "image/jpeg"

/-- `buildFileNameFromAsset` from trainingController.js (lines 52-70); JS
truthiness on the string fields is mediated by `strVal`. -/
def buildFileNameFromAsset (asset : Option UserAsset) (index : Nat) : String :=
  match asset with
  | none => "training-image-" ++ toString (index + 1) ++ ".jpg"
  | some a =>
      match strVal a.originalName with
      | some n => n
      | none =>
          match strVal a.key with
          | some k => jsBasename k
          | none =>
              match strVal a.name with
              | some n => n
              | none => "training-image-" ++ toString (index + 1) ++ ".jpg"

/-- Result of one `downloadAssetBuffer` call for a user asset: a buffer of
some length, a JS `null` (asset had neither key nor url, or empty S3 body),
or a thrown download error. -/
inductive DownloadOutcome where
  | buf : Nat → DownloadOutcome
  | nullBuf : DownloadOutcome
  | thrown : String → DownloadOutcome
deriving DecidableEq, Repr

/-- One prepared training image (the `sourceAssets` entries built by
startTraining). -/
structure SourceAsset where
  bufLen : Nat
  originalName : String
  contentType : String
  size : Nat
deriving DecidableEq, Repr

/-- The label used in the wrapped download error message:
`asset?.originalName || asset?.key || index`. -/
def assetLabel (a : UserAsset) (index : Nat) : String :=
  match strVal a.originalName with
  | some n => n
  | none =>
      match strVal a.key with
      | some k => k
      | none => toString index

/-- The download/skip/push loop of startTraining (lines 640-662) over the
enumerated user assets: an empty or null buffer is skipped, a download error
is rethrown wrapped, a non-empty buffer becomes a source asset. -/
def collectUserAssets : List (Nat × UserAsset) → (Nat → DownloadOutcome) →
    Except String (List SourceAsset)
  | [], _ => .ok []
  | (i, a) :: rest, download =>
      match download i with
      | .thrown m =>
          .error ("Failed to load user asset " ++ assetLabel a i ++ " for training: " ++ m)
      | .nullBuf => collectUserAssets rest download
      | .buf 0 => collectUserAssets rest download
      | .buf (n + 1) =>
          let originalName := buildFileNameFromAsset (some a) i
          match collectUserAssets rest download with
          | .error m => .error m
          | .ok tail =>
              .ok ({ bufLen := n + 1
                     originalName := originalName
                     contentType :=
                       (strVal a.contentType).getD (guessContentType originalName)
                     size := n + 1 } :: tail)

/-- `MAX_TRAINING_IMAGES` from trainingController.js line 29. -/
def MAX_TRAINING_IMAGES : Nat := 25

/-- The `.replace(/[^a-z0-9-]/g, '-')` sanitization applied to the base
model name. -/
def sanitizeModelName (s : String) : String :=
  s.map fun c =>
    if ('a' ≤ c ∧ c ≤ 'z') ∨ ('0' ≤ c ∧ c ≤ '9') ∨ c = '-' then c else '-'

/-- `getPublicUrl` from the S3 config module appended to the controller
source (lines 1100-1103). -/
def getPublicUrl (bucket key : String) : String :=
  "https://" ++ bucket ++ ".s3.amazonaws.com/" ++ key

/-- `generateTrainingZipKey` from the S3 config module (line 1188). -/
def generateTrainingZipKey (modelName : String) : String :=
  "trainings/" ++ modelName ++ "/" ++ modelName ++ ".zip"

/-- Result of the source-asset preparation phase of startTraining: an early
HTTP response (validation), a thrown error (caught as HTTP 500), or the
prepared list. -/
inductive PrepResult where
  | respond : Nat → String → PrepResult
  | thrown : String → PrepResult
  | ok : List SourceAsset → PrepResult
deriving DecidableEq, Repr

/-- The source-selection phase of startTraining (lines 624-677): user-library
assets (capped at MAX_TRAINING_IMAGES, empty library rejected, unloadable
library rejected) when no files were uploaded, else the uploaded files. -/
def prepareSourceAssets (files : List UploadedFile) (user : User)
    (download : Nat → DownloadOutcome) : PrepResult :=
  if files.isEmpty then
    if user.imageAssets.isEmpty then
      .respond 400 "Selected user has no uploaded images. Add reference photos before starting training."
    else
      match collectUserAssets (user.imageAssets.take MAX_TRAINING_IMAGES).enum download with
      | .error m => .thrown m
      | .ok sourceAssets =>
          if sourceAssets.isEmpty then
            .respond 400 "Unable to load user images for training. Please verify the uploaded files and try again."
          else .ok sourceAssets
  else
    .ok (files.enum.map fun p =>
      { bufLen := p.2.bufLen
        originalName :=
          (strVal p.2.originalname).getD ("training-image-" ++ toString (p.1 + 1) ++ ".jpg")
        contentType :=
          (strVal p.2.mimetype).getD (guessContentType ((p.2.originalname).getD ""))
        size := p.2.size })

/-- The replicate model-creation step of startTraining (lines 770-786): only
executed when the REPLICATE_USERNAME environment variable is truthy; a
failure there is rethrown (`Failed to create model: ...`). -/
def modelCreateStep (replicateUsername : Option String)
    (modelCreate : ProviderResult Unit) : ProviderResult Unit :=
  match strVal replicateUsername with
  | some _ => modelCreate
  | none => .ok ()

/-- Externally visible actions of a startTraining request, in order. -/
inductive StartAction where
  | createRecord
  | broadcast
  | dispatchCall
  | dbUpdate
deriving DecidableEq, Repr

/-- Observable outcome of a startTraining request: HTTP response, the Job
Record exactly as created (`created`, none when creation was never reached),
the final database state of that record, and the ordered action trace. -/
structure StartOutcome where
  httpStatus : Nat
  success : Bool
  message : String
  created : Option Training
  record : Option Training
  trace : List StartAction
deriving DecidableEq, Repr

/-- The request and environment of one startTraining invocation: request
body and files, the `User.findById` result, and every effect the controller
performs (asset downloads, env configuration, S3 key randomness, the clock,
the pending-id random token, `dispatchTraining` and its database effect, the
`new Date()` taken at dispatch failure). -/
structure StartEnv where
  files : List UploadedFile
  modelNameInput : Option String
  userIdReq : Nat
  userLookup : Option User
  download : Nat → DownloadOutcome
  replicateUsername : Option String
  modelCreate : ProviderResult Unit
  bucket : String
  imageKeyGen : String → String → Nat → String
  newId : Nat
  nowMs : Nat
  token : String
  dispatch : ProviderResult Unit
  dispatchEffect : Training → Training
  failMs : Nat

/-- The tail of startTraining once source assets are prepared (lines
686-858): build the unique model name, upload the images, optionally create
the replicate model, create the Job Record (status `queued`, progress 0,
attempts 0, placeholder handle, one `created` event), broadcast it, then
dispatch; a dispatch error marks the record `failed` (error message,
`completedAt`, pushed `error` event), broadcasts again and rethrows to the
catch block (HTTP 500). -/
def createAndDispatch (env : StartEnv) (user : User) (useUserAssets : Bool)
    (sourceAssets : List SourceAsset) : StartOutcome :=
  let baseModelName :=
    sanitizeModelName ((strVal env.modelNameInput).getD user.name.toLower)
  let uniqueModelName := baseModelName ++ "-" ++ toString env.nowMs
  let uploadedAssets : List TrainingAsset := sourceAssets.enum.map fun p =>
    let fileName :=
      if p.2.originalName.isEmpty then
        "training-image-" ++ toString (p.1 + 1) ++ ".jpg"
      else p.2.originalName
    let key := env.imageKeyGen uniqueModelName fileName p.1
    { key := key
      url := getPublicUrl env.bucket key
      size := p.2.size
      contentType := p.2.contentType
      uploadedAt := env.nowMs
      originalName := fileName }
  match modelCreateStep env.replicateUsername env.modelCreate with
  | .err _ =>
      { httpStatus := 500, success := false, message := "Failed to start training"
        created := none, record := none, trace := [] }
  | .ok _ =>
      let pendingId := createPendingReplicateId (.str uniqueModelName) env.nowMs env.token
      let newTraining : Training :=
        { id := env.newId
          userId := env.userIdReq
          modelName := uniqueModelName
          status := "queued"
          progress := 0
          attempts := 0
          replicateTrainingId := .str pendingId
          modelVersion := .null
          error := .null
          startedAt := none
          completedAt := none
          imageUrls := uploadedAssets.map (fun a => a.url)
          imageAssets := uploadedAssets
          events :=
            [{ type := "created"
               message := "Training dataset prepared and queued"
               metadata :=
                 [("userId", .num (env.userIdReq : Int)),
                  ("modelName", .str uniqueModelName),
                  ("images", .num (uploadedAssets.length : Int)),
                  ("source", .str (if useUserAssets then "user-library" else "upload"))]
               timestamp := env.nowMs }] }
      match env.dispatch with
      | .ok _ =>
          { httpStatus := 202, success := true, message := "Training started successfully"
            created := some newTraining
            record := some (env.dispatchEffect newTraining)
            trace := [.createRecord, .broadcast, .dispatchCall] }
      | .err m =>
          { httpStatus := 500, success := false, message := "Failed to start training"
            created := some newTraining
            record := some
              { newTraining with
                status := "failed"
                error := .str m
                completedAt := some env.failMs
                events := newTraining.events ++
                  [{ type := "error"
                     message := "Failed to dispatch training: " ++ m
                     metadata := [("attempt", .num 1)]
                     timestamp := env.failMs }] }
            trace := [.createRecord, .broadcast, .dispatchCall, .dbUpdate, .broadcast] }

/-- `startTraining` from trainingController.js (lines 602-886): validate the
owner reference, select and load the source images, then create and dispatch
the Job Record. -/
def startTraining (env : StartEnv) : StartOutcome :=
  match env.userLookup with
  | none =>
      { httpStatus := 404, success := false, message := "User not found"
        created := none, record := none, trace := [] }
  | some user =>
      match prepareSourceAssets env.files user env.download with
      | .respond code msg =>
          { httpStatus := code, success := false, message := msg
            created := none, record := none, trace := [] }
      | .thrown _ =>
          { httpStatus := 500, success := false, message := "Failed to start training"
            created := none, record := none, trace := [] }
      | .ok sourceAssets =>
          if sourceAssets.isEmpty then
            { httpStatus := 400, success := false
              message := "No training images available. Upload reference photos for the user before starting training."
              created := none, record := none, trace := [] }
          else
            createAndDispatch env user env.files.isEmpty sourceAssets

theorem isPending_createPending (v : JSValue) (nowMs : Nat) (token : String) :
    isPendingReplicateId (.str (createPendingReplicateId v nowMs token)) = true := by
  cases v <;>
    (simp only [isPendingReplicateId, createPendingReplicateId, String.append_assoc];
      exact jsStartsWith_append _ _)

theorem startTraining_created_eq (env : StartEnv) (t : Training)
    (h : (startTraining env).created = some t) :
    ∃ user sourceAssets,
      env.userLookup = some user
        ∧ prepareSourceAssets env.files user env.download = .ok sourceAssets
        ∧ sourceAssets.isEmpty = false
        ∧ startTraining env = createAndDispatch env user env.files.isEmpty sourceAssets := by
  rcases hu : env.userLookup with _ | user
  · simp [startTraining, hu] at h
  · rcases hp : prepareSourceAssets env.files user env.download with ⟨code, msg⟩ | m | src
    · simp [startTraining, hu, hp] at h
    · simp [startTraining, hu, hp] at h
    · by_cases he : src.isEmpty
      · simp [startTraining, hu, hp, he] at h
      · exact ⟨user, src, rfl, hp, by simpa using he,
          by simp [startTraining, hu, hp, he]⟩

/-- Claim C4: whenever dispatchTraining throws during startTraining, the
already-created Job Record is not dropped: the request fails with HTTP 500
and the record is left with status `failed`, its error field set to the
dispatch error message, `completedAt` set, and an `error` event appended to
its event log. -/
theorem C4_dispatch_failure_keeps_record (env : StartEnv) (m : String) (t : Training)
    (hDispatch : env.dispatch = .err m)
    (hCreated : (startTraining env).created = some t) :
    (startTraining env).httpStatus = 500
      ∧ (startTraining env).record.map Training.status = some "failed"
      ∧ (startTraining env).record.map Training.error = some (.str m)
      ∧ (startTraining env).record.map Training.completedAt = some (some env.failMs)
      ∧ (startTraining env).record.map Training.events
          = some (t.events ++
              [{ type := "error"
                 message := "Failed to dispatch training: " ++ m
                 metadata := [("attempt", .num 1)]
                 timestamp := env.failMs }]) := by
  obtain ⟨user, src, hu, hp, he, heq⟩ := startTraining_created_eq env t hCreated
  rw [heq] at hCreated ⊢
  rcases hmc : modelCreateStep env.replicateUsername env.modelCreate with u | mm
  · simp only [createAndDispatch, hmc, hDispatch] at hCreated ⊢
    simp only [Option.some.injEq] at hCreated
    subst hCreated
    simp
  · simp [createAndDispatch, hmc] at hCreated

/-- Claim C6: every Job Record created by startTraining is created with
status `queued`, progress 0, attempts 0, a placeholder external handle, and
an event log holding exactly one `created` event; and the record is
broadcast to subscribers before the dispatch call to the provider is made
(the action trace starts createRecord, broadcast, dispatchCall). -/
theorem C6_created_record_shape (env : StartEnv) (t : Training)
    (hCreated : (startTraining env).created = some t) :
    t.status = "queued"
      ∧ t.progress = 0
      ∧ t.attempts = 0
      ∧ isPendingReplicateId t.replicateTrainingId = true
      ∧ t.events.map TrainingEvent.type = ["created"]
      ∧ (startTraining env).trace.take 3 = [.createRecord, .broadcast, .dispatchCall] := by
  obtain ⟨user, src, hu, hp, he, heq⟩ := startTraining_created_eq env t hCreated
  rw [heq] at hCreated ⊢
  rcases hmc : modelCreateStep env.replicateUsername env.modelCreate with u | mm
  · rcases hd : env.dispatch with u2 | m
    · simp only [createAndDispatch, hmc, hd] at hCreated ⊢
      simp only [Option.some.injEq] at hCreated
      subst hCreated
      exact ⟨rfl, rfl, rfl, isPending_createPending _ _ _, rfl, rfl⟩
    · simp only [createAndDispatch, hmc, hd] at hCreated ⊢
      simp only [Option.some.injEq] at hCreated
      subst hCreated
      exact ⟨rfl, rfl, rfl, isPending_createPending _ _ _, rfl, rfl⟩
  · simp [createAndDispatch, hmc] at hCreated

/-- Claim C7: a startTraining request with a bad owner reference (user not
found) or with no available training images (no uploaded files and no stored
user assets) is rejected synchronously (404 resp. 400) before any Job Record
is created: no record is ever created or touched, and no action is taken. -/
theorem C7_validation_before_create (env : StartEnv) :
    (env.userLookup = none →
        (startTraining env).httpStatus = 404
          ∧ (startTraining env).created = none
          ∧ (startTraining env).record = none
          ∧ (startTraining env).trace = [])
      ∧ (∀ user, env.userLookup = some user → env.files = [] → user.imageAssets = [] →
          (startTraining env).httpStatus = 400
            ∧ (startTraining env).created = none
            ∧ (startTraining env).record = none
            ∧ (startTraining env).trace = []) := by
  constructor
  · intro h
    simp [startTraining, h]
  · intro user hu hf ha
    simp [startTraining, hu, prepareSourceAssets, hf, ha]

/-- Placeholder Training value used only as the default of `Option.getD`. -/
def dummyTraining : Training :=
  { id := 0, userId := 0, modelName := "", status := "", progress := 0
    attempts := 0, replicateTrainingId := .null, modelVersion := .null
    error := .null, startedAt := none, completedAt := none
    imageUrls := [], imageAssets := [], events := [] }

/-- A concrete startTraining environment whose request passes validation and
whose dispatch succeeds. -/
def demoStartEnv : StartEnv :=
  { files := [{ originalname := some "a.png", mimetype := some "image/png", bufLen := 3, size := 3 }]
    modelNameInput := some "demo"
    userIdReq := 7
    userLookup := some { uid := 7, name := "Ab", imageAssets := [] }
    download := fun _ => .nullBuf
    replicateUsername := none
    modelCreate := .ok ()
    bucket := "b"
    imageKeyGen := fun _ _ i => "k" ++ toString i
    newId := 3
    nowMs := 5
    token := "tok"
    dispatch := .ok ()
    dispatchEffect := fun t => t
    failMs := 9 }

/-- demoStartEnv with a throwing dispatchTraining. -/
def demoFailEnv : StartEnv := { demoStartEnv with dispatch := .err "boom" }

def demoCreated : Training := (startTraining demoStartEnv).created.getD dummyTraining

def demoFailCreated : Training := (startTraining demoFailEnv).created.getD dummyTraining

/-- Witness for C4_dispatch_failure_keeps_record on the concrete failing
environment. -/
theorem C4_dispatch_failure_witness :
    (startTraining demoFailEnv).httpStatus = 500
      ∧ (startTraining demoFailEnv).record.map Training.status = some "failed"
      ∧ (startTraining demoFailEnv).record.map Training.error = some (.str "boom") := by
  have h := C4_dispatch_failure_keeps_record demoFailEnv "boom" demoFailCreated rfl rfl
  exact ⟨h.1, h.2.1, h.2.2.1⟩

/-- Witness for C6_created_record_shape on the concrete successful
environment. -/
theorem C6_created_record_witness :
    (startTraining demoStartEnv).created = some demoCreated
      ∧ demoCreated.status = "queued"
      ∧ demoCreated.attempts = 0
      ∧ isPendingReplicateId demoCreated.replicateTrainingId = true := by
  have h := C6_created_record_shape demoStartEnv demoCreated rfl
  exact ⟨rfl, h.1, h.2.2.1, h.2.2.2.1⟩

/-- Witness for C7_validation_before_create: a missing user and a user with
no stored images. -/
theorem C7_validation_witness :
    (startTraining { demoStartEnv with userLookup := none }).httpStatus = 404
      ∧ (startTraining { demoStartEnv with userLookup := none }).created = none
      ∧ (startTraining { demoStartEnv with files := [] }).httpStatus = 400
      ∧ (startTraining { demoStartEnv with files := [] }).created = none := by
  have h1 := (C7_validation_before_create { demoStartEnv with userLookup := none }).1 rfl
  have h2 := (C7_validation_before_create { demoStartEnv with files := [] }).2
    { uid := 7, name := "Ab", imageAssets := [] } rfl rfl rfl
  exact ⟨h1.1, h1.2.1, h2.1, h2.2.1⟩

/-- A frame written to the server-sent-events response: an SSE comment
(`: text`) or a data message (`data: text`). -/
inductive SSEFrame where
  | comment : String → SSEFrame
  | data : String → SSEFrame
deriving DecidableEq, Repr

/-- The JSON serialization of a Training snapshot pushed on the stream
(`JSON.stringify(serialiseTraining(payload))`), embedded as a concrete
encoding of the snapshot fields. -/
def jsonOfTraining (t : Training) : String :=
  "\x7b\"id\":" ++ toString t.id ++ ",\"status\":\"" ++ t.status ++
    "\",\"progress\":" ++ toString t.progress ++ "\x7d"

/-- State of one streamTrainings connection: response headers, the frames
written so far, whether the Broadcaster subscription is still registered,
whether the heartbeat interval timer is still armed, and its period. -/
structure StreamConn where
  headers : List (String × String)
  writes : List SSEFrame
  subscribed : Bool
  timerActive : Bool
  heartbeatMs : Nat
deriving DecidableEq, Repr

/-- `streamTrainings` from trainingController.js (lines 1006-1032), the
connection-open part: set the SSE headers, write the initial
`: stream-start` comment, register the Broadcaster subscription, and arm a
25000 ms heartbeat interval. -/
def streamTrainingsOpen : StreamConn :=
  { headers :=
      [("Content-Type", "text/event-stream"),
       ("Cache-Control", "no-cache"),
       ("Connection", "keep-alive")]
    writes := [.comment "stream-start"]
    subscribed := true
    timerActive := true
    heartbeatMs := 25000 }

/-- Events a live connection can experience: a Broadcaster publish delivered
to the subscription callback, a heartbeat timer tick, or the client closing
the connection. -/
inductive StreamEvent where
  | publish : Training → StreamEvent
  | heartbeatTick : StreamEvent
  | clientClose : StreamEvent
deriving Repr

/-- One step of a streamTrainings connection: a delivered publish writes one
`data:` frame (the subscription callback `send`), a timer tick writes one
`: ping` comment (the 25 s interval), and a client `close` clears the
interval and unsubscribes from the Broadcaster. -/
def streamStep (c : StreamConn) (e : StreamEvent) : StreamConn :=
  match e with
  | .publish t =>
      if c.subscribed then { c with writes := c.writes ++ [.data (jsonOfTraining t)] } else c
  | .heartbeatTick =>
      if c.timerActive then { c with writes := c.writes ++ [.comment "ping"] } else c
  | .clientClose => { c with subscribed := false, timerActive := false }

theorem streamStep_closed (c : StreamConn) (e : StreamEvent)
    (h1 : c.subscribed = false) (h2 : c.timerActive = false) :
    streamStep c e = c := by
  cases c
  cases e <;> simp_all [streamStep]

theorem streamRun_closed (c : StreamConn)
    (h1 : c.subscribed = false) (h2 : c.timerActive = false) (es : List StreamEvent) :
    List.foldl streamStep c es = c := by
  induction es with
  | nil => rfl
  | cons e rest ih => rw [List.foldl_cons, streamStep_closed c e h1 h2, ih]

/-- Claim C8: a streamTrainings connection writes the initial comment frame
first; its heartbeat interval is 25000 ms and each tick while the timer is
armed writes one comment frame; each delivered publish while subscribed is
forwarded as one discrete JSON data frame; and a client disconnect clears
the heartbeat timer and removes the Broadcaster subscription, after which no
event of any kind produces further writes (no leaked subscription). -/
theorem C8_stream_contract (c : StreamConn) (t : Training) (es : List StreamEvent) :
    streamTrainingsOpen.writes = [.comment "stream-start"]
      ∧ streamTrainingsOpen.heartbeatMs = 25000
      ∧ streamTrainingsOpen.subscribed = true
      ∧ (c.subscribed = true →
          (streamStep c (.publish t)).writes = c.writes ++ [.data (jsonOfTraining t)])
      ∧ (c.timerActive = true →
          (streamStep c .heartbeatTick).writes = c.writes ++ [.comment "ping"])
      ∧ (streamStep c .clientClose).subscribed = false
      ∧ (streamStep c .clientClose).timerActive = false
      ∧ List.foldl streamStep (streamStep c .clientClose) es = streamStep c .clientClose := by
  refine ⟨rfl, rfl, rfl, ?_, ?_, rfl, rfl, ?_⟩
  · intro h
    simp [streamStep, h]
  · intro h
    simp [streamStep, h]
  · exact streamRun_closed _ rfl rfl es

/-- Witness for C8_stream_contract on the freshly opened connection, a
concrete record and a concrete post-close event list. -/
theorem C8_stream_witness :
    (streamStep streamTrainingsOpen (.publish trainingSucceededReal)).writes
        = [.comment "stream-start", .data (jsonOfTraining trainingSucceededReal)]
      ∧ (streamStep streamTrainingsOpen .heartbeatTick).writes
          = [.comment "stream-start", .comment "ping"]
      ∧ List.foldl streamStep (streamStep streamTrainingsOpen .clientClose)
          [.publish trainingSucceededReal, .heartbeatTick]
            = streamStep streamTrainingsOpen .clientClose := by
  have h := C8_stream_contract streamTrainingsOpen trainingSucceededReal
    [.publish trainingSucceededReal, .heartbeatTick]
  exact ⟨h.2.2.2.1 rfl, h.2.2.2.2.1 rfl, h.2.2.2.2.2.2.2⟩

/-- The shape returned per record by getAllTrainings in minimal mode
(lines 210-237): the selected scalar fields plus the sliced image arrays and
the full-length counts. -/
structure MinimalTrainingView where
  userId : Nat
  modelName : String
  status : String
  progress : Nat
  attempts : Nat
  error : JSValue
  startedAt : Option Nat
  completedAt : Option Nat
  imageAssets : List TrainingAsset
  imageAssetCount : Nat
  imageUrls : List String
  imageUrlCount : Nat
deriving DecidableEq, Repr

/-- The per-record transformation of getAllTrainings minimal mode (lines
224-237): `imageAssets.slice(0, 12)` and `imageUrls.slice(0, 12)` with
`imageAssetCount`/`imageUrlCount` taken from the full stored arrays. -/
def minimalTrainingView (t : Training) : MinimalTrainingView :=
  { userId := t.userId
    modelName := t.modelName
    status := t.status
    progress := t.progress
    attempts := t.attempts
    error := t.error
    startedAt := t.startedAt
    completedAt := t.completedAt
    imageAssets := t.imageAssets.take 12
    imageAssetCount := t.imageAssets.length
    imageUrls := t.imageUrls.take 12
    imageUrlCount := t.imageUrls.length }

/-- The data array of getAllTrainings in minimal mode for one result page. -/
def getAllTrainingsMinimalData (page : List Training) : List MinimalTrainingView :=
  page.map minimalTrainingView

/-- The reduced asset shape produced by the getTrainingsLean aggregation
`$project` stage (url, size, contentType only). -/
structure LeanAssetView where
  url : String
  size : Nat
  contentType : String
deriving DecidableEq, Repr

/-- The per-record shape returned by getTrainingsLean. -/
structure LeanTrainingView where
  userId : Nat
  modelName : String
  status : String
  progress : Nat
  attempts : Nat
  error : JSValue
  startedAt : Option Nat
  completedAt : Option Nat
  imageAssets : List LeanAssetView
  imageUrls : List String
  imageAssetCount : Nat
  imageUrlCount : Nat
deriving DecidableEq, Repr

/-- The getTrainingsLean aggregation `$project` stage (lines 355-389):
assets mapped to their minimal shape, counts computed with `$size` over the
full stored arrays. -/
def leanProjectStage (t : Training) : LeanTrainingView :=
  { userId := t.userId
    modelName := t.modelName
    status := t.status
    progress := t.progress
    attempts := t.attempts
    error := t.error
    startedAt := t.startedAt
    completedAt := t.completedAt
    imageAssets := t.imageAssets.map fun a =>
      { url := a.url, size := a.size, contentType := a.contentType }
    imageUrls := t.imageUrls
    imageAssetCount := t.imageAssets.length
    imageUrlCount := t.imageUrls.length }

/-- The per-record result of getTrainingsLean: the `$project` stage followed
by the JS post-processing slice to the first 12 entries (lines 447-452). -/
def leanTrainingView (t : Training) : LeanTrainingView :=
  let v := leanProjectStage t
  { v with imageAssets := v.imageAssets.take 12, imageUrls := v.imageUrls.take 12 }

/-- The data array of getTrainingsLean for one result page. -/
def getTrainingsLeanData (page : List Training) : List LeanTrainingView :=
  page.map leanTrainingView

/-- Claim C10: in both minimal mode (getAllTrainings with minimal=true) and
lean mode (getTrainingsLean), every returned training carries at most the
first 12 stored entries in its imageAssets and imageUrls arrays, while
imageAssetCount and imageUrlCount always equal the full stored lengths. -/
theorem C10_minimal_lean_truncation (t : Training) (page : List Training) :
    (minimalTrainingView t).imageAssets = t.imageAssets.take 12
      ∧ (minimalTrainingView t).imageAssets.length ≤ 12
      ∧ (minimalTrainingView t).imageAssetCount = t.imageAssets.length
      ∧ (minimalTrainingView t).imageUrls = t.imageUrls.take 12
      ∧ (minimalTrainingView t).imageUrls.length ≤ 12
      ∧ (minimalTrainingView t).imageUrlCount = t.imageUrls.length
      ∧ (leanTrainingView t).imageAssets
          = (t.imageAssets.map fun a =>
              { url := a.url, size := a.size, contentType := a.contentType }).take 12
      ∧ (leanTrainingView t).imageAssets.length ≤ 12
      ∧ (leanTrainingView t).imageAssetCount = t.imageAssets.length
      ∧ (leanTrainingView t).imageUrls = t.imageUrls.take 12
      ∧ (leanTrainingView t).imageUrls.length ≤ 12
      ∧ (leanTrainingView t).imageUrlCount = t.imageUrls.length
      ∧ getAllTrainingsMinimalData page = page.map minimalTrainingView
      ∧ getTrainingsLeanData page = page.map leanTrainingView := by
  refine ⟨rfl, ?_, rfl, rfl, ?_, rfl, rfl, ?_, rfl, rfl, ?_, rfl, rfl, rfl⟩
  · simpa [minimalTrainingView] using
      (List.length_take 12 t.imageAssets ▸ min_le_left 12 t.imageAssets.length)
  · simpa [minimalTrainingView] using
      (List.length_take 12 t.imageUrls ▸ min_le_left 12 t.imageUrls.length)
  · simpa [leanTrainingView, leanProjectStage] using
      (min_le_left 12 (t.imageAssets.map fun a =>
        ({ url := a.url, size := a.size, contentType := a.contentType } : LeanAssetView)).length)
  · simpa [leanTrainingView, leanProjectStage] using
      (min_le_left 12 t.imageUrls.length)
